import Mathlib

/-!
Shallow embedding of the VIPER CVE scanner core
(`src/utils/database_handler.py` and `src/utils/industry_filters.py`).

The SQLite tables are modelled as Lean lists of records in physical row
order; `INSERT OR REPLACE` on a `UNIQUE`/`PRIMARY KEY` column is modelled
as "delete the conflicting rows, append the fresh row", matching SQLite's
delete-then-insert semantics (with `AUTOINCREMENT` the fresh row gets a new
largest rowid, i.e. it goes to the end of the scan order).  Python/SQLite
floats are modelled as exact rationals (ℚ); timestamps (`datetime.now()`)
are passed in as explicit string parameters.
-/

/-- One row of the `cves` table (`init_database`, `database_handler.py`).
Columns `cve_id, description, published_date, cvss_score, severity,
epss_score DEFAULT 0, in_kev INTEGER DEFAULT 0, risk_score, last_updated`.
`risk_score` is never written by any operation, so it is `none` on every
row the code produces; `in_kev` stores the 0/1 integer as a `Bool`. -/
structure CveRow where
  cve_id : String
  description : String
  published_date : String
  cvss_score : ℚ
  severity : String
  epss_score : ℚ
  in_kev : Bool
  risk_score : Option ℚ
  last_updated : String
deriving Repr, DecidableEq

/-- One row of the `epss_scores` table: `cve_id, epss_score, percentile, date`. -/
structure EpssRow where
  cve_id : String
  epss_score : ℚ
  percentile : ℚ
  date : String
deriving Repr, DecidableEq

/-- One row of the `updates` table: `source, last_run, records_count`. -/
structure UpdateRow where
  source : String
  last_run : String
  records_count : Nat
deriving Repr, DecidableEq

/-- The whole database state: the three tables created by `init_database`. -/
structure DBState where
  cves : List CveRow
  epss_scores : List EpssRow
  updates : List UpdateRow
deriving Repr, DecidableEq

/-- The statement `INSERT OR REPLACE INTO updates (source, last_run, records_count)`:
the conflicting row for the same `source` (the primary key) is deleted and
the fresh row is inserted. -/
def upsertUpdate (us : List UpdateRow) (src now : String) (cnt : Nat) :
    List UpdateRow :=
  us.filter (fun u => u.source != src) ++ [⟨src, now, cnt⟩]

/-- Method `get_last_update`: `SELECT last_run, records_count FROM updates WHERE
source = ?` with `fetchone()`, i.e. the first matching row or `None`. -/
def get_last_update (db : DBState) (source : String) :
    Option (String × Nat) :=
  (db.updates.find? (fun u => u.source == source)).map
    (fun u => (u.last_run, u.records_count))

/-- One input dictionary for `update_cve_data`: required keys `cve_id`,
`description`, `cvss_score`; optional keys `published_date` and `severity`
(`cve.get(...)` with defaults). -/
structure CveInput where
  cve_id : String
  description : String
  published_date : Option String
  cvss_score : ℚ
  severity : Option String
deriving Repr, DecidableEq

/-- One `INSERT OR REPLACE INTO cves (cve_id, description, published_date,
cvss_score, severity, last_updated)` from `update_cve_data`: the unique
conflict on `cve_id` deletes the old row, and the fresh row carries the
schema defaults `epss_score = 0`, `in_kev = 0` and `risk_score = NULL`
for the unsupplied columns. -/
def insertOrReplaceCve (cves : List CveRow) (c : CveInput) (now : String) :
    List CveRow :=
  cves.filter (fun r => r.cve_id != c.cve_id) ++
    [{ cve_id := c.cve_id
       description := c.description
       published_date := c.published_date.getD now
       cvss_score := c.cvss_score
       severity := c.severity.getD "UNKNOWN"
       epss_score := 0
       in_kev := false
       risk_score := none
       last_updated := now }]

/-- Method `update_cve_data`: loop the inserts over the batch, then stamp the
`nvd` row of the `updates` table with the count; returns the count.
(The per-row `try/except` only fires on malformed Python dictionaries,
which the typed `CveInput` rules out, so every row counts.) -/
def update_cve_data (db : DBState) (cve_list : List CveInput) (now : String) :
    DBState × Nat :=
  ({ cves := cve_list.foldl (fun acc c => insertOrReplaceCve acc c now) db.cves
     epss_scores := db.epss_scores
     updates := upsertUpdate db.updates "nvd" now cve_list.length },
   cve_list.length)

/-- The scalar subquery `SELECT epss_score FROM epss_scores WHERE
epss_scores.cve_id = cves.cve_id`: the first matching row's score. -/
def epssLookup (df : List EpssRow) (cid : String) : Option ℚ :=
  (df.find? (fun e => e.cve_id == cid)).map (fun e => e.epss_score)

/-- The `UPDATE cves SET epss_score = (...) WHERE cve_id IN (SELECT cve_id
FROM epss_scores)` of `update_epss_scores`, applied to one row: rows whose
id appears in the (new) `epss_scores` table get that table's score, the
others are untouched. -/
def propagateEpss (df : List EpssRow) (c : CveRow) : CveRow :=
  match epssLookup df c.cve_id with
  | some v => { c with epss_score := v }
  | none => c

/-- Method `update_epss_scores`: `df.to_sql('epss_scores', if_exists='replace')`
replaces the whole `epss_scores` table with the batch, then the `UPDATE`
propagates the new scores onto `cves`, then the `epss` row of `updates`
is stamped with the batch length. -/
def update_epss_scores (db : DBState) (df : List EpssRow) (now : String) :
    DBState :=
  { cves := db.cves.map (propagateEpss df)
    epss_scores := df
    updates := upsertUpdate db.updates "epss" now df.length }

/-- Method `update_kev_status`: `UPDATE cves SET in_kev = 0`, then (only when the
set is non-empty, guarded by `if kev_set:`) `UPDATE cves SET in_kev = 1
WHERE cve_id IN (...)`, then stamp the `kev` row of `updates` with the
set's size.  The Python set of ids is modelled as a list. -/
def update_kev_status (db : DBState) (kev_set : List String) (now : String) :
    DBState :=
  let reset := db.cves.map (fun c => { c with in_kev := false })
  let marked :=
    if kev_set.isEmpty then reset
    else reset.map (fun c =>
      if kev_set.contains c.cve_id then { c with in_kev := true } else c)
  { cves := marked
    epss_scores := db.epss_scores
    updates := upsertUpdate db.updates "kev" now kev_set.length }

/-- The five priority tiers assigned in `get_all_cves`.  In the source each
tier is an emoji-prefixed display string ("... PRIORITY 1+ (IMMEDIATE)",
"... PRIORITY 1 (This week)", "... PRIORITY 2 (Schedule)",
"... PRIORITY 3 (Monitor)", "... PRIORITY 4 (Deprioritize)"); the five
strings are pairwise distinct, so they are modelled as an enumeration. -/
inductive Priority where
  | immediate
  | thisWeek
  | schedule
  | monitor
  | deprioritize
deriving Repr, DecidableEq

/-- The priority if-chain of `get_all_cves` (lines 257-266):
`if cve['in_kev']: ... elif epss_score > 0.2 and cvss_score > 7.0: ...
elif cvss_score > 7.0: ... elif epss_score > 0.2: ... else: ...`. -/
def calculate_priority (in_kev : Bool) (epss_score cvss_score : ℚ) :
    Priority :=
  if in_kev then .immediate
  else if epss_score > 0.2 ∧ cvss_score > 7.0 then .thisWeek
  else if cvss_score > 7.0 then .schedule
  else if epss_score > 0.2 then .monitor
  else .deprioritize

/-- One row of the query result of `get_all_cves` (after the priority
column is attached).  The sample dictionaries of `get_sample_cves` lack
the `severity`, `percentile`, `published_date` and `last_updated` keys, so
those fields are optional; for real rows `percentile` is NULL (`none`)
exactly when the left join found no `epss_scores` row. -/
structure OutRow where
  cve_id : String
  description : String
  cvss_score : ℚ
  severity : Option String
  epss_score : ℚ
  percentile : Option ℚ
  in_kev : Bool
  published_date : Option String
  last_updated : Option String
  priority : Priority
deriving Repr, DecidableEq

/-- The clause `LEFT JOIN epss_scores e ON c.cve_id = e.cve_id` for one `cves` row:
one output pair per matching `epss_scores` row, or a single pair with
NULLs (`none`) when there is no match. -/
def joinMatches (es : List EpssRow) (c : CveRow) :
    List (CveRow × Option EpssRow) :=
  match es.filter (fun e => e.cve_id == c.cve_id) with
  | [] => [(c, none)]
  | ms => ms.map (fun e => (c, some e))

/-- The `e.epss_score` sort key of a joined pair: `none` is SQL NULL. -/
def epssKey (x : CveRow × Option EpssRow) : Option ℚ :=
  x.2.map (fun e => e.epss_score)

/-- The clause `ORDER BY e.epss_score DESC, c.cvss_score DESC` as a boolean total
preorder: `x` may precede `y`.  In SQLite NULL is smaller than every
value, so with `DESC` the NULL rows (no epss match) sort last. -/
def rowLE (x y : CveRow × Option EpssRow) : Bool :=
  match epssKey x, epssKey y with
  | none, none => decide (y.1.cvss_score ≤ x.1.cvss_score)
  | none, some _ => false
  | some _, none => true
  | some a, some b =>
    if a = b then decide (y.1.cvss_score ≤ x.1.cvss_score)
    else decide (b < a)

/-- The comparison `rowLE` as a relation, for `List.insertionSort` / `List.Sorted`. -/
def RowRel (x y : CveRow × Option EpssRow) : Prop :=
  rowLE x y = true

instance : DecidableRel RowRel := fun x y =>
  inferInstanceAs (Decidable (rowLE x y = true))

/-- The full `SELECT ... FROM cves c LEFT JOIN epss_scores e ... ORDER BY
e.epss_score DESC, c.cvss_score DESC` (before `LIMIT`): join every `cves`
row, then sort by the key.  SQL leaves the relative order of key-ties
unspecified; a stable sort is one faithful realisation. -/
def sortedJoin (db : DBState) : List (CveRow × Option EpssRow) :=
  List.insertionSort RowRel (db.cves.flatMap (joinMatches db.epss_scores))

/-- Build the result dictionary for one joined row: the selected columns
(`COALESCE(e.epss_score, 0) as epss_score`, `e.percentile`, the `cves`
columns) plus the computed `priority`. -/
def toOutRow (x : CveRow × Option EpssRow) : OutRow :=
  let eps := (epssKey x).getD 0
  { cve_id := x.1.cve_id
    description := x.1.description
    cvss_score := x.1.cvss_score
    severity := some x.1.severity
    epss_score := eps
    percentile := x.2.map (fun e => e.percentile)
    in_kev := x.1.in_kev
    published_date := some x.1.published_date
    last_updated := some x.1.last_updated
    priority := calculate_priority x.1.in_kev eps x.1.cvss_score }

/-- Method `get_sample_cves`: the two fixed fallback dictionaries (their
`priority` strings are the IMMEDIATE and This-week tier labels). -/
def get_sample_cves : List OutRow :=
  [{ cve_id := "SAMPLE-2025-001"
     description := "Buffer overflow in Siemens PLC allowing remote code execution"
     cvss_score := 9.8
     severity := none
     epss_score := 0.89
     percentile := none
     in_kev := true
     published_date := none
     last_updated := none
     priority := .immediate },
   { cve_id := "SAMPLE-2025-002"
     description := "Authentication bypass in Philips MRI software exposing patient data"
     cvss_score := 8.5
     severity := none
     epss_score := 0.45
     percentile := none
     in_kev := false
     published_date := none
     last_updated := none
     priority := .thisWeek }]

/-- Method `get_all_cves(limit=1000)`: run the joined, ordered query with
`LIMIT {limit}` (SQLite: a negative limit means "no bound", `LIMIT 0`
returns no rows), and if the resulting frame is empty return the sample
set, otherwise attach a priority to every row. -/
def get_all_cves (db : DBState) (limit : Int := 1000) : List OutRow :=
  let sorted := sortedJoin db
  let taken := if limit < 0 then sorted else sorted.take limit.toNat
  if taken.isEmpty then get_sample_cves
  else taken.map toOutRow

/-!  `src/utils/industry_filters.py` -/

/-- Python `str.lower()` on the keyword/description strings (all ASCII),
as a list of characters. -/
def strLower (s : String) : List Char :=
  s.data.map Char.toLower

/-- Whether `needle` is a prefix of `hay` (over characters). -/
def hasPrefixC : List Char → List Char → Bool
  | [], _ => true
  | _ :: _, [] => false
  | a :: as, b :: bs => a == b && hasPrefixC as bs

/-- Python's substring operator `needle in hay` (over characters). -/
def containsC (needle : List Char) : List Char → Bool
  | [] => needle.isEmpty
  | c :: t => hasPrefixC needle (c :: t) || containsC needle t

/-- The keyword dictionary: industry → category → keyword list, with the
JSON object's insertion order kept (Python dicts preserve it). -/
abbrev KeywordTable := List (String × List (String × List String))

/-- Python `self.keywords[industry]` guarded by `industry in self.keywords`:
the first binding of the key, if any. -/
def lookupIndustry (tbl : KeywordTable) (industry : String) :
    Option (List (String × List String)) :=
  (tbl.find? (fun p => p.1 == industry)).map (fun p => p.2)

/-- Method `_get_default_keywords`: the built-in fallback table. -/
def get_default_keywords : KeywordTable :=
  [("healthcare",
    [("medical_devices", ["mri", "pacemaker", "ventilator"]),
     ("healthcare_it", ["ehr", "emr", "dicom"]),
     ("vendors", ["philips", "medtronic", "ge"]),
     ("clinical_context", ["patient", "hospital", "clinical"])]),
   ("energy",
    [("ot_ics", ["scada", "plc", "ics"]),
     ("infrastructure", ["grid", "substation", "pipeline"]),
     ("vendors", ["siemens", "schneider", "rockwell"]),
     ("components", ["hmi", "rtu", "controller"])])]

/-- The membership test `category in ['medical_devices', 'ot_ics']` of
`get_industry_score`: the two "core" categories are weighted higher. -/
def isCoreCategory (category : String) : Bool :=
  category == "medical_devices" || category == "ot_ics"

/-- The weight the scorer adds per matched keyword:
`if category in ['medical_devices', 'ot_ics']: score += 0.5 else: 0.3`. -/
def keywordMatchWeight (category : String) : ℚ :=
  if isCoreCategory category then 0.5 else 0.3

/-- The match list built by the loops of `get_industry_score`: for every
category of the industry (in table order) and every keyword of the
category (in list order), the pair `(category, keyword)` whenever
`keyword.lower() in text_lower`.  An unknown industry yields no matches. -/
def industryMatches (tbl : KeywordTable) (text industry : String) :
    List (String × String) :=
  match lookupIndustry tbl industry with
  | none => []
  | some cats =>
    cats.flatMap (fun ck =>
      (ck.2.filter (fun kw => containsC (strLower kw) (strLower text))).map
        (fun kw => (ck.1, kw)))

/-- The result dictionary of `get_industry_score`.  The source's key
`matches` is a reserved word in Lean, hence `matchesList`. -/
structure ScoreResult where
  industry : String
  relevance_score : ℚ
  matchesList : List (String × String)
  match_count : Nat
deriving Repr, DecidableEq

/-- Method `get_industry_score(text, industry)`: accumulate the per-match weights
and normalise with `min(10, score * 2)`. -/
def get_industry_score (tbl : KeywordTable) (text industry : String) :
    ScoreResult :=
  let ms := industryMatches tbl text industry
  let score := ms.foldl (fun s m => s + keywordMatchWeight m.1) 0
  { industry := industry
    relevance_score := min 10 (score * 2)
    matchesList := ms
    match_count := ms.length }

/-- The in-memory state of `IndustryFilter`: the active keyword table. -/
structure FilterState where
  keywords : KeywordTable
deriving Repr, DecidableEq

/-- Method `save_keywords(new_keywords)`: `json.dump` the new table to the file
inside a `try`, and only after the write completed assign
`self.keywords = new_keywords` and return `True`; on an exception the
assignment is never reached and `False` is returned.  The success of the
external file write is abstracted into the boolean `writeOk`. -/
def save_keywords (st : FilterState) (new_keywords : KeywordTable)
    (writeOk : Bool) : FilterState × Bool :=
  if writeOk then ({ keywords := new_keywords }, true) else (st, false)

/-!  Claim theorems -/

/-- C1: the priority classifier is a total, deterministic function of
(exploited flag, exploitation probability, severity score) evaluating the
five rules in fixed order with first match winning: exploited gives
IMMEDIATE regardless of the other inputs; otherwise probability > 0.2 and
severity > 7.0 gives THIS_WEEK; otherwise severity > 7.0 gives SCHEDULE;
otherwise probability > 0.2 gives MONITOR; otherwise DEPRIORITIZE.  The
comparisons are strict: severity exactly 7.0 with probability 0.9 and
exploited false yields MONITOR. -/
theorem priority_classifier_rules (k : Bool) (p s : ℚ) :
    (k = true → calculate_priority k p s = .immediate) ∧
    (k = false → 0.2 < p → 7.0 < s → calculate_priority k p s = .thisWeek) ∧
    (k = false → ¬ 0.2 < p → 7.0 < s → calculate_priority k p s = .schedule) ∧
    (k = false → 0.2 < p → ¬ 7.0 < s → calculate_priority k p s = .monitor) ∧
    (k = false → ¬ 0.2 < p → ¬ 7.0 < s →
      calculate_priority k p s = .deprioritize) ∧
    calculate_priority false 0.9 7.0 = .monitor := by
  unfold calculate_priority
  refine ⟨?_, ?_, ?_, ?_, ?_, ?_⟩
  · rintro rfl; simp
  · rintro rfl hp hs; simp [hp, hs]
  · rintro rfl hp hs; simp [hp, hs]
  · rintro rfl hp hs; simp [hp, hs]
  · rintro rfl hp hs; simp [hp, hs]
  · norm_num

/-- Witness for C1 at concrete inputs: exploited with zero scores is still
IMMEDIATE, and the 7.0-severity boundary with probability 0.9 is MONITOR. -/
theorem priority_classifier_rules_witness :
    calculate_priority true 0 0 = .immediate ∧
    calculate_priority false 0.9 7.0 = .monitor :=
  ⟨(priority_classifier_rules true 0 0).1 rfl,
   (priority_classifier_rules false 0.9 7.0).2.2.2.1 rfl (by norm_num)
     (by norm_num)⟩

/-- C8: `save_keywords` makes the new table the active in-memory table
only when persisting to external storage succeeds; on any failure it
returns a failure result, the previously active table stays unchanged, and
the active table is never a partial mix — it is wholly the old table or
wholly the new one. -/
theorem save_keywords_swap_on_success (st : FilterState)
    (new_keywords : KeywordTable) (writeOk : Bool) :
    ((save_keywords st new_keywords writeOk).2 = writeOk) ∧
    (writeOk = false → save_keywords st new_keywords writeOk = (st, false)) ∧
    (writeOk = true →
      save_keywords st new_keywords writeOk = (⟨new_keywords⟩, true)) ∧
    ((save_keywords st new_keywords writeOk).1 = st ∨
      (save_keywords st new_keywords writeOk).1 = ⟨new_keywords⟩) := by
  cases writeOk <;> simp [save_keywords]

/-- Witness for C8: a failed save of an empty table over the default table
returns `false` and leaves the default table active. -/
theorem save_keywords_swap_on_success_witness :
    save_keywords ⟨get_default_keywords⟩ [] false
      = (⟨get_default_keywords⟩, false) :=
  (save_keywords_swap_on_success ⟨get_default_keywords⟩ [] false).2.1 rfl

/-- C6: `update_epss_scores` is idempotent — applying the same batch twice
leaves the `epss_scores` table and the whole `cves` table (in particular
every propagated probability) identical to applying it once. -/
theorem update_epss_scores_idempotent (db : DBState) (df : List EpssRow)
    (now1 now2 : String) :
    (update_epss_scores (update_epss_scores db df now1) df now2).epss_scores
        = (update_epss_scores db df now1).epss_scores ∧
    (update_epss_scores (update_epss_scores db df now1) df now2).cves
        = (update_epss_scores db df now1).cves := by
  refine ⟨rfl, ?_⟩
  simp only [update_epss_scores, List.map_map]
  apply List.map_congr_left
  intro c _
  show propagateEpss df (propagateEpss df c) = propagateEpss df c
  cases h : epssLookup df c.cve_id with
  | none => simp [propagateEpss, h]
  | some v => simp [propagateEpss, h]

/-- Every `cves` column except `epss_score`, as one tuple. -/
def epssFrame (c : CveRow) :
    String × String × String × ℚ × String × Bool × Option ℚ × String :=
  (c.cve_id, c.description, c.published_date, c.cvss_score, c.severity,
   c.in_kev, c.risk_score, c.last_updated)

/-- Every `cves` column except `in_kev`, as one tuple. -/
def kevFrame (c : CveRow) :
    String × String × String × ℚ × String × ℚ × Option ℚ × String :=
  (c.cve_id, c.description, c.published_date, c.cvss_score, c.severity,
   c.epss_score, c.risk_score, c.last_updated)

/-- C5: the two enrichment paths touch only their own column of each
`cves` row — `update_epss_scores` changes at most `epss_score` and
`update_kev_status` changes at most `in_kev`; identifier, description,
published date, severity score, severity label and last-updated timestamp
(and the respective other enrichment column) are unchanged by both. -/
theorem enrichment_paths_frame (db : DBState) (df : List EpssRow)
    (kev_set : List String) (now1 now2 : String) :
    (update_epss_scores db df now1).cves.map epssFrame
        = db.cves.map epssFrame ∧
    (update_kev_status db kev_set now2).cves.map kevFrame
        = db.cves.map kevFrame := by
  constructor
  · simp only [update_epss_scores, List.map_map]
    apply List.map_congr_left
    intro c _
    show epssFrame (propagateEpss df c) = epssFrame c
    cases h : epssLookup df c.cve_id with
    | none => simp [propagateEpss, h]
    | some v => simp [propagateEpss, h, epssFrame]
  · simp only [update_kev_status]
    cases hk : kev_set.isEmpty
    · rw [if_neg (by simp [hk])]
      simp only [List.map_map]
      apply List.map_congr_left
      intro c _
      simp only [Function.comp_apply]
      split <;> rfl
    · rw [if_pos (by simp [hk]), List.map_map]
      apply List.map_congr_left
      intro c _
      rfl

/-- Rows surviving the `update_cve_data` insert loop either come from the
starting table with an identifier that is not in the batch, or are freshly
inserted rows carrying the schema defaults `epss_score = 0`, `in_kev = 0`. -/
theorem foldl_insertOrReplace_mem (l : List CveInput) (acc : List CveRow)
    (now : String) (r : CveRow)
    (hr : r ∈ l.foldl (fun a c => insertOrReplaceCve a c now) acc) :
    (r ∈ acc ∧ r.cve_id ∉ l.map (fun c => c.cve_id)) ∨
      (r.epss_score = 0 ∧ r.in_kev = false) := by
  induction l generalizing acc with
  | nil =>
    left
    exact ⟨hr, by simp⟩
  | cons c t ih =>
    simp only [List.foldl_cons] at hr
    rcases ih _ hr with ⟨hmem, hnot⟩ | hdef
    · simp only [insertOrReplaceCve, List.mem_append, List.mem_filter,
        List.mem_singleton] at hmem
      rcases hmem with ⟨hacc, hne⟩ | rfl
      · left
        refine ⟨hacc, ?_⟩
        simp only [List.map_cons, List.mem_cons]
        push_neg
        exact ⟨by simpa using hne, by simpa using hnot⟩
      · right
        exact ⟨rfl, rfl⟩
    · right
      exact hdef

/-- C4 (implicit): a metadata upsert whose batch contains an identifier
fully replaces that row via delete-and-reinsert with only the metadata
columns supplied, so in the resulting `cves` table every row whose
identifier is in the batch has the schema defaults `epss_score = 0` and
`in_kev = false` — any previously propagated EPSS probability and any KEV
mark are lost for that record. -/
theorem update_cve_data_resets_enrichment (db : DBState)
    (l : List CveInput) (now : String) (r : CveRow)
    (hr : r ∈ (update_cve_data db l now).1.cves)
    (hid : r.cve_id ∈ l.map (fun c => c.cve_id)) :
    r.epss_score = 0 ∧ r.in_kev = false := by
  rcases foldl_insertOrReplace_mem l db.cves now r hr with ⟨_, hnot⟩ | hdef
  · exact absurd hid hnot
  · exact hdef

/-- Witness for C4: upserting metadata for an identifier whose stored row
has a propagated probability of 0.9 and an exploited mark leaves the
surviving row with probability 0 and the mark cleared. -/
theorem update_cve_data_resets_enrichment_witness :
    { cve_id := "CVE-1", description := "new text", published_date := "d2",
      cvss_score := 5, severity := "MEDIUM", epss_score := 0,
      in_kev := false, risk_score := none,
      last_updated := "t2" : CveRow }.epss_score = 0 ∧
    { cve_id := "CVE-1", description := "new text", published_date := "d2",
      cvss_score := 5, severity := "MEDIUM", epss_score := 0,
      in_kev := false, risk_score := none,
      last_updated := "t2" : CveRow }.in_kev = false :=
  update_cve_data_resets_enrichment
    { cves := [{ cve_id := "CVE-1", description := "old", published_date := "d1",
                 cvss_score := 9, severity := "CRITICAL", epss_score := 0.9,
                 in_kev := true, risk_score := none, last_updated := "t1" }],
      epss_scores := [], updates := [] }
    [{ cve_id := "CVE-1", description := "new text",
       published_date := some "d2", cvss_score := 5,
       severity := some "MEDIUM" }]
    "t2" _ (by decide) (by decide)

/-- An `INSERT OR REPLACE` into `updates` followed by the keyed `SELECT`
returns exactly the row just written. -/
theorem find_upsertUpdate (us : List UpdateRow) (src now : String)
    (cnt : Nat) :
    (upsertUpdate us src now cnt).find? (fun u => u.source == src)
      = some ⟨src, now, cnt⟩ := by
  induction us with
  | nil => simp [upsertUpdate]
  | cons u t ih =>
    by_cases h : u.source = src
    · simp only [upsertUpdate, List.filter_cons] at ih ⊢
      rw [if_neg (by simp [h])]
      exact ih
    · simp only [upsertUpdate, List.filter_cons] at ih ⊢
      rw [if_pos (by simp [h]), List.cons_append,
        List.find?_cons_of_neg _ (by simp [h])]
      exact ih

/-- C7: `update_kev_status` with the empty set leaves every row's exploited
flag false and still stamps the `kev` update record with count 0; with any
set, identifiers that match no stored row are silently ignored — the row
count and the stored identifiers are unchanged (no row is created) and the
`kev` update record carries the set's size. -/
theorem update_kev_status_empty_and_ignore (db : DBState)
    (kev_set : List String) (now : String) :
    (∀ c ∈ (update_kev_status db [] now).cves, c.in_kev = false) ∧
    get_last_update (update_kev_status db [] now) "kev" = some (now, 0) ∧
    (update_kev_status db kev_set now).cves.length = db.cves.length ∧
    (update_kev_status db kev_set now).cves.map (fun c => c.cve_id)
        = db.cves.map (fun c => c.cve_id) ∧
    get_last_update (update_kev_status db kev_set now) "kev"
      = some (now, kev_set.length) := by
  refine ⟨?_, ?_, ?_, ?_, ?_⟩
  · intro c hc
    simp only [update_kev_status, List.isEmpty_nil, if_true,
      List.mem_map] at hc
    rcases hc with ⟨a, _, rfl⟩
    rfl
  · simp [get_last_update, update_kev_status, find_upsertUpdate]
  · simp only [update_kev_status]
    cases hk : kev_set.isEmpty
    · rw [if_neg (by simp [hk])]
      simp
    · rw [if_pos (by simp [hk])]
      simp
  · simp only [update_kev_status]
    cases hk : kev_set.isEmpty
    · rw [if_neg (by simp [hk])]
      simp only [List.map_map]
      apply List.map_congr_left
      intro c _
      simp only [Function.comp_apply]
      split <;> rfl
    · rw [if_pos (by simp [hk])]
      simp only [List.map_map]
      apply List.map_congr_left
      intro c _
      rfl
  · simp [get_last_update, update_kev_status, find_upsertUpdate]

/-- Witness for C7 at a concrete store: one stored row that was exploited,
cleared by the empty-set call; a one-element set naming an absent
identifier creates no row and stamps count 1. -/
theorem update_kev_status_empty_and_ignore_witness :
    ({ cve_id := "CVE-1", description := "d", published_date := "p",
       cvss_score := 9, severity := "CRITICAL", epss_score := 0,
       in_kev := false, risk_score := none,
       last_updated := "t0" : CveRow }).in_kev = false ∧
    get_last_update
      (update_kev_status
        { cves := [{ cve_id := "CVE-1", description := "d",
                     published_date := "p", cvss_score := 9,
                     severity := "CRITICAL", epss_score := 0,
                     in_kev := true, risk_score := none,
                     last_updated := "t0" }],
          epss_scores := [], updates := [] } ["CVE-MISSING"] "t1") "kev"
      = some ("t1", 1) ∧
    (update_kev_status
        { cves := [{ cve_id := "CVE-1", description := "d",
                     published_date := "p", cvss_score := 9,
                     severity := "CRITICAL", epss_score := 0,
                     in_kev := true, risk_score := none,
                     last_updated := "t0" }],
          epss_scores := [], updates := [] } ["CVE-MISSING"] "t1").cves.map
        (fun c => c.cve_id) = ["CVE-1"] := by
  refine ⟨?_, ?_, ?_⟩
  · exact (update_kev_status_empty_and_ignore
      { cves := [{ cve_id := "CVE-1", description := "d",
                   published_date := "p", cvss_score := 9,
                   severity := "CRITICAL", epss_score := 0,
                   in_kev := true, risk_score := none,
                   last_updated := "t0" }],
        epss_scores := [], updates := [] } ["CVE-MISSING"] "t1").1 _
      (by decide)
  · exact (update_kev_status_empty_and_ignore
      { cves := [{ cve_id := "CVE-1", description := "d",
                   published_date := "p", cvss_score := 9,
                   severity := "CRITICAL", epss_score := 0,
                   in_kev := true, risk_score := none,
                   last_updated := "t0" }],
        epss_scores := [], updates := [] } ["CVE-MISSING"] "t1").2.2.2.2
  · decide

/-- The score accumulated by the match loop is 0.5 per core-category match
plus 0.3 per other match. -/
theorem foldl_weight (ms : List (String × String)) (a : ℚ) :
    ms.foldl (fun s m => s + keywordMatchWeight m.1) a
      = a + (1/2) * ((ms.filter (fun m => isCoreCategory m.1)).length : ℚ)
          + (3/10) * ((ms.filter (fun m => !isCoreCategory m.1)).length : ℚ) := by
  induction ms generalizing a with
  | nil => simp
  | cons m t ih =>
    simp only [List.foldl_cons, List.filter_cons]
    cases hm : isCoreCategory m.1
    · rw [ih]
      simp only [keywordMatchWeight, hm, Bool.not_false, if_true,
        Bool.false_eq_true, if_false, List.length_cons]
      push_cast
      ring
    · rw [ih]
      simp only [keywordMatchWeight, hm, Bool.not_true, if_true,
        Bool.false_eq_true, if_false, List.length_cons]
      push_cast
      ring

/-- C9: for a text and an industry present in the keyword table,
`get_industry_score` accumulates 0.5 per matched keyword in a core
category (`medical_devices`, `ot_ics`) and 0.3 per matched keyword in any
other category, and returns `min 10 (weight * 2)`; a text matching exactly
one core keyword and one non-core keyword of the industry scores 1.6. -/
theorem get_industry_score_weights (tbl : KeywordTable)
    (text industry : String) (cats : List (String × List String))
    (_h : lookupIndustry tbl industry = some cats) :
    (get_industry_score tbl text industry).matchesList
        = industryMatches tbl text industry ∧
    (get_industry_score tbl text industry).relevance_score
        = min 10
          ((((industryMatches tbl text industry).filter
                (fun m => isCoreCategory m.1)).length * (0.5 : ℚ)
            + ((industryMatches tbl text industry).filter
                (fun m => !isCoreCategory m.1)).length * (0.3 : ℚ)) * 2) ∧
    ((((industryMatches tbl text industry).filter
          (fun m => isCoreCategory m.1)).length = 1) →
      ((((industryMatches tbl text industry).filter
          (fun m => !isCoreCategory m.1)).length = 1) →
        (get_industry_score tbl text industry).relevance_score = 1.6)) := by
  refine ⟨rfl, ?_, ?_⟩
  · show min 10
        ((industryMatches tbl text industry).foldl
          (fun s m => s + keywordMatchWeight m.1) 0 * 2) = _
    rw [foldl_weight]
    norm_num
    ring_nf
  · intro h1 h2
    show min 10
        ((industryMatches tbl text industry).foldl
          (fun s m => s + keywordMatchWeight m.1) 0 * 2) = _
    rw [foldl_weight, h1, h2]
    norm_num

/-- Witness for C9: against the built-in default table, the text
"siemens scada attack" matches exactly the core keyword "scada"
(`ot_ics`) and the non-core keyword "siemens" (`vendors`) for "energy",
so its relevance score is 1.6. -/
theorem get_industry_score_weights_witness :
    (get_industry_score get_default_keywords "siemens scada attack"
      "energy").relevance_score = 1.6 :=
  (get_industry_score_weights get_default_keywords "siemens scada attack"
    "energy"
    [("ot_ics", ["scada", "plc", "ics"]),
     ("infrastructure", ["grid", "substation", "pipeline"]),
     ("vendors", ["siemens", "schneider", "rockwell"]),
     ("components", ["hmi", "rtu", "controller"])]
    (by decide)).2.2 (by decide) (by decide)

/-- C3: `update_epss_scores` wholesale-replaces the `epss_scores` table
with the batch — afterwards the table holds exactly the batch (so exactly
the batch's identifiers, and every identifier previously present but
absent from the batch is gone) — and propagates: a `cves` row whose
identifier is in the batch gets its `epss_score` set to the batch value,
and a row not in the batch is completely unchanged (keeping its previous
probability, 0 if never set). -/
theorem update_epss_scores_replace_propagate (db : DBState)
    (df : List EpssRow) (now : String) :
    (update_epss_scores db df now).epss_scores = df ∧
    (∀ cid : String,
      cid ∈ (update_epss_scores db df now).epss_scores.map
          (fun e => e.cve_id)
        ↔ cid ∈ df.map (fun e => e.cve_id)) ∧
    (update_epss_scores db df now).cves.length = db.cves.length ∧
    (∀ i (hi : i < db.cves.length)
        (hj : i < (update_epss_scores db df now).cves.length),
      (∀ v : ℚ, epssLookup df (db.cves.get ⟨i, hi⟩).cve_id = some v →
        (update_epss_scores db df now).cves.get ⟨i, hj⟩
          = { db.cves.get ⟨i, hi⟩ with epss_score := v }) ∧
      (epssLookup df (db.cves.get ⟨i, hi⟩).cve_id = none →
        (update_epss_scores db df now).cves.get ⟨i, hj⟩
          = db.cves.get ⟨i, hi⟩)) := by
  refine ⟨rfl, fun cid => Iff.rfl, by simp [update_epss_scores], ?_⟩
  intro i hi hj
  constructor
  · intro v hv
    simp only [List.get_eq_getElem] at hv
    simp only [update_epss_scores, List.get_eq_getElem, List.getElem_map]
    simp [propagateEpss, hv]
  · intro hv
    simp only [List.get_eq_getElem] at hv
    simp only [update_epss_scores, List.get_eq_getElem, List.getElem_map]
    simp [propagateEpss, hv]

/-- Witness for C3 at a concrete store: a two-row store and a one-row
batch; the batched row's probability is overwritten and the other row is
untouched, while the `epss_scores` table becomes exactly the batch. -/
theorem update_epss_scores_replace_propagate_witness :
    (update_epss_scores
        { cves :=
            [{ cve_id := "CVE-A", description := "a", published_date := "p",
               cvss_score := 9, severity := "CRITICAL", epss_score := 0,
               in_kev := false, risk_score := none, last_updated := "t0" },
             { cve_id := "CVE-B", description := "b", published_date := "p",
               cvss_score := 5, severity := "MEDIUM", epss_score := 1,
               in_kev := false, risk_score := none, last_updated := "t0" }],
          epss_scores := [{ cve_id := "CVE-B", epss_score := 1,
                            percentile := 1, date := "d0" }],
          updates := [] }
        [{ cve_id := "CVE-A", epss_score := 1, percentile := 1,
           date := "d1" }] "t1").epss_scores
      = [{ cve_id := "CVE-A", epss_score := 1, percentile := 1,
           date := "d1" }] ∧
    (update_epss_scores
        { cves :=
            [{ cve_id := "CVE-A", description := "a", published_date := "p",
               cvss_score := 9, severity := "CRITICAL", epss_score := 0,
               in_kev := false, risk_score := none, last_updated := "t0" },
             { cve_id := "CVE-B", description := "b", published_date := "p",
               cvss_score := 5, severity := "MEDIUM", epss_score := 1,
               in_kev := false, risk_score := none, last_updated := "t0" }],
          epss_scores := [{ cve_id := "CVE-B", epss_score := 1,
                            percentile := 1, date := "d0" }],
          updates := [] }
        [{ cve_id := "CVE-A", epss_score := 1, percentile := 1,
           date := "d1" }] "t1").cves.get ⟨0, by decide⟩
      = { cve_id := "CVE-A", description := "a", published_date := "p",
          cvss_score := 9, severity := "CRITICAL", epss_score := 1,
          in_kev := false, risk_score := none, last_updated := "t0" } ∧
    (update_epss_scores
        { cves :=
            [{ cve_id := "CVE-A", description := "a", published_date := "p",
               cvss_score := 9, severity := "CRITICAL", epss_score := 0,
               in_kev := false, risk_score := none, last_updated := "t0" },
             { cve_id := "CVE-B", description := "b", published_date := "p",
               cvss_score := 5, severity := "MEDIUM", epss_score := 1,
               in_kev := false, risk_score := none, last_updated := "t0" }],
          epss_scores := [{ cve_id := "CVE-B", epss_score := 1,
                            percentile := 1, date := "d0" }],
          updates := [] }
        [{ cve_id := "CVE-A", epss_score := 1, percentile := 1,
           date := "d1" }] "t1").cves.get ⟨1, by decide⟩
      = { cve_id := "CVE-B", description := "b", published_date := "p",
          cvss_score := 5, severity := "MEDIUM", epss_score := 1,
          in_kev := false, risk_score := none, last_updated := "t0" } := by
  refine ⟨?_, ?_, ?_⟩
  · exact (update_epss_scores_replace_propagate
      { cves :=
          [{ cve_id := "CVE-A", description := "a", published_date := "p",
             cvss_score := 9, severity := "CRITICAL", epss_score := 0,
             in_kev := false, risk_score := none, last_updated := "t0" },
           { cve_id := "CVE-B", description := "b", published_date := "p",
             cvss_score := 5, severity := "MEDIUM", epss_score := 1,
             in_kev := false, risk_score := none, last_updated := "t0" }],
        epss_scores := [{ cve_id := "CVE-B", epss_score := 1,
                          percentile := 1, date := "d0" }],
        updates := [] }
      [{ cve_id := "CVE-A", epss_score := 1, percentile := 1,
         date := "d1" }] "t1").1
  · exact ((update_epss_scores_replace_propagate
      { cves :=
          [{ cve_id := "CVE-A", description := "a", published_date := "p",
             cvss_score := 9, severity := "CRITICAL", epss_score := 0,
             in_kev := false, risk_score := none, last_updated := "t0" },
           { cve_id := "CVE-B", description := "b", published_date := "p",
             cvss_score := 5, severity := "MEDIUM", epss_score := 1,
             in_kev := false, risk_score := none, last_updated := "t0" }],
        epss_scores := [{ cve_id := "CVE-B", epss_score := 1,
                          percentile := 1, date := "d0" }],
        updates := [] }
      [{ cve_id := "CVE-A", epss_score := 1, percentile := 1,
         date := "d1" }] "t1").2.2.2 0 (by decide) (by decide)).1 1
      (by decide)
  · exact ((update_epss_scores_replace_propagate
      { cves :=
          [{ cve_id := "CVE-A", description := "a", published_date := "p",
             cvss_score := 9, severity := "CRITICAL", epss_score := 0,
             in_kev := false, risk_score := none, last_updated := "t0" },
           { cve_id := "CVE-B", description := "b", published_date := "p",
             cvss_score := 5, severity := "MEDIUM", epss_score := 1,
             in_kev := false, risk_score := none, last_updated := "t0" }],
        epss_scores := [{ cve_id := "CVE-B", epss_score := 1,
                          percentile := 1, date := "d0" }],
        updates := [] }
      [{ cve_id := "CVE-A", epss_score := 1, percentile := 1,
         date := "d1" }] "t1").2.2.2 1 (by decide) (by decide)).2
      (by decide)

/-- C10: when the `cves` table is completely empty, `get_all_cves` returns
(without error, for every limit) the fixed fallback sample set; that set
has a record with the exploited flag set that carries the IMMEDIATE tier,
and every fallback record is recognisable by its sentinel "SAMPLE-"
identifier. -/
theorem get_all_cves_empty_fallback (db : DBState) (limit : Int)
    (h : db.cves = []) :
    get_all_cves db limit = get_sample_cves ∧
    (∃ r ∈ get_sample_cves,
      r.in_kev = true ∧ r.priority = Priority.immediate) ∧
    (∀ r ∈ get_sample_cves,
      hasPrefixC "SAMPLE-".data r.cve_id.data = true) := by
  refine ⟨?_, ?_, ?_⟩
  · simp [get_all_cves, sortedJoin, h]
  · refine ⟨_, List.mem_cons_self _ _, rfl, rfl⟩
  · intro r hr
    simp only [get_sample_cves, List.mem_cons, List.mem_singleton,
      List.not_mem_nil, or_false] at hr
    rcases hr with rfl | rfl <;> decide

/-- Witness for C10: the completely empty store returns the sample set. -/
theorem get_all_cves_empty_fallback_witness :
    get_all_cves { cves := [], epss_scores := [], updates := [] } 1000
      = get_sample_cves :=
  (get_all_cves_empty_fallback
    { cves := [], epss_scores := [], updates := [] } 1000 rfl).1

/-- The ORDER BY comparison is total. -/
theorem rowLE_total (x y : CveRow × Option EpssRow) :
    RowRel x y ∨ RowRel y x := by
  unfold RowRel rowLE
  cases hx : epssKey x <;> cases hy : epssKey y <;> dsimp only
  · rcases le_total y.1.cvss_score x.1.cvss_score with h | h
    · left; simpa using h
    · right; simpa using h
  · right; rfl
  · left; rfl
  · rename_i a b
    by_cases hab : a = b
    · subst hab
      rw [if_pos rfl, if_pos rfl]
      rcases le_total y.1.cvss_score x.1.cvss_score with h | h
      · left; simpa using h
      · right; simpa using h
    · rw [if_neg hab, if_neg (Ne.symm hab)]
      rcases lt_or_gt_of_ne hab with h | h
      · right; simpa using h
      · left; simpa using h

/-- The ORDER BY comparison is transitive. -/
theorem rowLE_trans (x y z : CveRow × Option EpssRow)
    (hxy : RowRel x y) (hyz : RowRel y z) : RowRel x z := by
  unfold RowRel rowLE at hxy hyz ⊢
  cases hx : epssKey x <;> cases hy : epssKey y <;> cases hz : epssKey z <;>
      rw [hx, hy] at hxy <;> rw [hy, hz] at hyz <;> dsimp only at hxy hyz ⊢
  · simp only [decide_eq_true_eq] at hxy hyz ⊢
    exact le_trans hyz hxy
  · exact absurd hyz (by simp)
  · exact absurd hxy (by simp)
  · exact absurd hxy (by simp)
  · exact absurd hyz (by simp)
  · rename_i a b c
    by_cases hab : a = b <;> by_cases hbc : b = c
    · subst hab; subst hbc
      rw [if_pos rfl] at hxy hyz ⊢
      simp only [decide_eq_true_eq] at hxy hyz ⊢
      exact le_trans hyz hxy
    · subst hab
      rw [if_pos rfl] at hxy
      rw [if_neg hbc] at hyz
      simp only [decide_eq_true_eq] at hxy hyz
      rw [if_neg hbc]
      simpa using hyz
    · subst hbc
      rw [if_neg hab] at hxy
      rw [if_pos rfl] at hyz
      simp only [decide_eq_true_eq] at hxy hyz
      rw [if_neg hab]
      simpa using hxy
    · rw [if_neg hab] at hxy
      rw [if_neg hbc] at hyz
      simp only [decide_eq_true_eq] at hxy hyz
      have hca : c < a := lt_trans hyz hxy
      have hac : ¬ a = c := fun hac => absurd (hac ▸ hca) (lt_irrefl a)
      rw [if_neg hac]
      simpa using hca

instance : IsTotal (CveRow × Option EpssRow) RowRel := ⟨rowLE_total⟩

instance : IsTrans (CveRow × Option EpssRow) RowRel := ⟨rowLE_trans⟩

/-- The left join never drops a `cves` row, so the ordered join of a
non-empty store is non-empty. -/
theorem sortedJoin_ne_nil (db : DBState) (h : db.cves ≠ []) :
    sortedJoin db ≠ [] := by
  unfold sortedJoin
  intro hs
  have hlen := congrArg List.length hs
  rw [List.length_insertionSort] at hlen
  obtain ⟨c, t, hct⟩ := List.exists_cons_of_ne_nil h
  rw [hct] at hlen
  simp only [List.flatMap_cons, List.length_append, List.length_nil] at hlen
  have h1 : 0 < (joinMatches db.epss_scores c).length := by
    unfold joinMatches
    cases hf : db.epss_scores.filter (fun e => e.cve_id == c.cve_id) <;>
      simp
  omega

/-- C2 counterexample: with a store holding one vulnerability row, the
prioritized read with the non-positive limit 0 does not fail with a
validation error — it returns the ordinary fallback sample set, exactly
the value the empty store produces, so the outcome is a normal non-empty
result indistinguishable from the empty-store read. -/
theorem get_all_cves_zero_limit_counterexample :
    get_all_cves
      { cves := [{ cve_id := "CVE-A", description := "a",
                   published_date := "p", cvss_score := 9,
                   severity := "CRITICAL", epss_score := 0,
                   in_kev := false, risk_score := none,
                   last_updated := "t0" }],
        epss_scores := [], updates := [] } 0
      = get_sample_cves ∧
    get_all_cves { cves := [], epss_scores := [], updates := [] }
      = get_sample_cves ∧
    get_sample_cves ≠ [] := by
  refine ⟨rfl, rfl, by decide⟩

/-- C2 amended: the code never validates the limit — `LIMIT 0` yields an
empty frame and hence the fallback sample set (for every store), and a
negative limit is unbounded in SQLite, returning all rows.  A missing
limit defaults to 1000.  For a positive limit on a non-empty store the
result is the ordered join capped at `limit` rows, the join being sorted
by the epss-table score descending (rows without a score row last) and
then severity score descending. -/
theorem get_all_cves_limit_cap_order (db : DBState) (limit : Int)
    (hpos : 0 < limit) (hne : db.cves ≠ []) :
    get_all_cves db limit
        = ((sortedJoin db).take limit.toNat).map toOutRow ∧
    (get_all_cves db limit).length ≤ limit.toNat ∧
    List.Sorted RowRel (sortedJoin db) ∧
    (∀ d : DBState, get_all_cves d 0 = get_sample_cves) ∧
    (∀ neg : Int, neg < 0 →
      get_all_cves db neg = (sortedJoin db).map toOutRow) ∧
    (∀ d : DBState, get_all_cves d = get_all_cves d 1000) := by
  have hsj := sortedJoin_ne_nil db hne
  have htake : (sortedJoin db).take limit.toNat ≠ [] := by
    obtain ⟨c, t, hct⟩ := List.exists_cons_of_ne_nil hsj
    rw [hct]
    have h0 : limit.toNat ≠ 0 := by omega
    obtain ⟨n, hn⟩ := Nat.exists_eq_succ_of_ne_zero h0
    rw [hn]
    simp
  have hemp : ¬ ((sortedJoin db).take limit.toNat).isEmpty = true := by
    simp only [List.isEmpty_iff]
    exact htake
  have hemp2 : ¬ (sortedJoin db).isEmpty = true := by
    simp only [List.isEmpty_iff]
    exact hsj
  refine ⟨?_, ?_, ?_, ?_, ?_, fun d => rfl⟩
  · simp only [get_all_cves]
    rw [if_neg (show ¬ limit < 0 by omega), if_neg hemp]
  · simp only [get_all_cves]
    rw [if_neg (show ¬ limit < 0 by omega), if_neg hemp, List.length_map,
      List.length_take]
    exact min_le_left _ _
  · unfold sortedJoin
    exact List.sorted_insertionSort RowRel _
  · intro d
    simp [get_all_cves]
  · intro neg hneg
    simp only [get_all_cves]
    rw [if_pos hneg, if_neg hemp2]

/-- Witness for C2-amended at a concrete one-row store with limit 5. -/
theorem get_all_cves_limit_cap_order_witness :
    (get_all_cves
      { cves := [{ cve_id := "CVE-A", description := "a",
                   published_date := "p", cvss_score := 9,
                   severity := "CRITICAL", epss_score := 0,
                   in_kev := false, risk_score := none,
                   last_updated := "t0" }],
        epss_scores := [], updates := [] } 5).length ≤ (5 : Int).toNat :=
  (get_all_cves_limit_cap_order
    { cves := [{ cve_id := "CVE-A", description := "a",
                 published_date := "p", cvss_score := 9,
                 severity := "CRITICAL", epss_score := 0,
                 in_kev := false, risk_score := none,
                 last_updated := "t0" }],
      epss_scores := [], updates := [] } 5 (by decide) (by decide)).2.1
